import Mathlib

/-!
Shallow embedding of the SmartCook browser client
(src/script.js, procedural variant; src/unnamed/part_000, class-based
variant with `RecipeRecommender`).  JS objects are modelled as Lean
structures with `Option` fields for the optional / possibly-absent JSON
fields; JS truthiness tests on strings and the `||` default operator are
modelled explicitly; template-literal markup is modelled as string
concatenation (layout whitespace inside the templates is normalised,
the visible text and attribute values are kept verbatim).
-/

namespace SmartCook

/-- A recipe object as delivered in the `/suggest` response envelope.
The two client variants read different field names from it
(`used`/`missing` in script.js, `used_ingredients`/`missing_ingredients`
in the class-based variant), so the dynamic JS object is modelled with
all of them, each optional.  The JS field `match` is a Lean keyword and
is embedded as `matchVal`. -/
structure Recipe where
  title : String
  matchVal : Int
  used : Option (List String)
  missing : Option (List String)
  used_ingredients : Option (List String)
  missing_ingredients : Option (List String)
  directions : Option String
  link : Option String
deriving Repr, DecidableEq

/-- A fetch response: `ok`, `status`, `statusText` and the parsed JSON body. -/
structure HttpResponse (β : Type) where
  ok : Bool
  status : Nat
  statusText : String
  body : β
deriving Repr, DecidableEq

/-- Body of the `/health` response. -/
structure HealthBody where
  status : String
  models_loaded : Bool
deriving Repr, DecidableEq

/-- Body of the `/download-models` response. -/
structure DownloadBody where
  success : Bool
  error : Option String
deriving Repr, DecidableEq

/-- Body of the `/suggest` response; `recipes` is `none` when the field
is absent (JS `data.recipes` evaluates to `undefined`). -/
structure SuggestEnvelope where
  recipes : Option (List Recipe)
deriving Repr, DecidableEq

/-- JS truthiness of a possibly-absent string: `undefined` and `""` are
falsy, every other string is truthy. -/
def jsTruthy : Option String → Bool
  | none => false
  | some s => s ≠ ""

/-- JS `x || d` on a possibly-absent string `x`: yields `d` when `x` is
`undefined` or the empty string (both falsy), else `x`. -/
def jsOrDefault (o : Option String) (d : String) : String :=
  match o with
  | none => d
  | some s => if s = "" then d else s

/-- JS `String.prototype.trim()`: strips leading and trailing
whitespace, modelled structurally on the character list. -/
def jsTrim (s : String) : String :=
  ⟨((s.data.dropWhile Char.isWhitespace).reverse.dropWhile Char.isWhitespace).reverse⟩

/-- `charsPrefix pat l = true` iff the char list `pat` is a prefix of `l`. -/
def charsPrefix : List Char → List Char → Bool
  | [], _ => true
  | _ :: _, [] => false
  | a :: as, b :: bs => a == b && charsPrefix as bs

/-- `charsContain pat l = true` iff the char list `pat` occurs
contiguously inside `l`. -/
def charsContain (pat : List Char) : List Char → Bool
  | [] => pat.isEmpty
  | b :: bs => charsPrefix pat (b :: bs) || charsContain pat bs

/-- `strContains s pat = true` iff `pat` occurs as a substring of `s`. -/
def strContains (s pat : String) : Bool :=
  charsContain pat.data s.data

/-- The "no results" placeholder markup, identical in both variants. -/
def noResultsHtml : String :=
  "<p class=\"no-results\">Nenhuma receita encontrada. Tente outros ingredientes!</p>"

/-! ### script.js (procedural variant): `displayResults`

The card template reads `recipe.used.map(...)` and `recipe.missing.map(...)`
without any guard, so building a card throws a `TypeError` when either
list is absent; this is modelled by an `Option` result. -/

/-- One recipe card of script.js `displayResults` (lines 50-72).
`none` models the `TypeError` thrown by `.map` on an absent list. -/
def scriptRecipeCard (r : Recipe) : Option String :=
  match r.used, r.missing with
  | some used, some missing =>
    some ("<h2 class=\"recipe-title\">" ++ r.title
      ++ " <span class=\"match-percentage\">" ++ toString r.matchVal ++ "%</span></h2>"
      ++ "<div class=\"ingredients-grid\">"
      ++ "<div class=\"ingredients-used\"><h3>✅ Você tem:</h3><ul>"
      ++ String.join (used.map (fun ing => "<li class=\"ingredient has\">✔ " ++ ing ++ "</li>"))
      ++ "</ul></div>"
      ++ "<div class=\"ingredients-missing\"><h3>❌ Faltando:</h3><ul>"
      ++ String.join (missing.map (fun ing => "<li class=\"ingredient missing\">✖ " ++ ing ++ "</li>"))
      ++ "</ul></div></div>"
      ++ (if jsTruthy r.directions then
            "<div class=\"directions\"><p>📝 <strong>Modo de preparo:</strong> "
              ++ r.directions.getD "" ++ "</p></div>"
          else "")
      ++ (if jsTruthy r.link then
            "<a href=\"" ++ r.link.getD ""
              ++ "\" target=\"_blank\" class=\"recipe-link\">🔗 Ver receita completa</a>"
          else ""))
  | _, _ => none

/-- script.js `displayResults` (lines 37-76): the list of card markups
appended to the results element, the placeholder when the list is empty,
`none` when some card throws. -/
def scriptDisplayResults (recipes : List Recipe) : Option (List String) :=
  if recipes.length = 0 then some [noResultsHtml]
  else recipes.mapM scriptRecipeCard

/-! ### part_000 (class-based variant): `displayResults`

`recipe.used_ingredients?.map(...).join('') || fallback` yields the
fallback `<li>` both when the field is absent (optional chaining gives
`undefined`) and when the joined string is empty (falsy), so the section
always renders; `directions` and `link` blocks are guarded by truthiness
and vanish when absent. -/

/-- The "Você tem" list items of a class-variant card, with the JS `||`
fallback item. -/
def appUsedList (r : Recipe) : String :=
  jsOrDefault
    (r.used_ingredients.map (fun l =>
      String.join (l.map (fun i => "<li class=\"ingredient has\">" ++ i ++ "</li>"))))
    "<li>Nenhum ingrediente principal</li>"

/-- The "Precisa comprar" list items of a class-variant card, with the
JS `||` fallback item. -/
def appMissingList (r : Recipe) : String :=
  jsOrDefault
    (r.missing_ingredients.map (fun l =>
      String.join (l.map (fun i => "<li class=\"ingredient missing\">" ++ i ++ "</li>"))))
    "<li>Nada!</li>"

/-- The optional directions block of a class-variant card; empty string
when `directions` is absent or empty (JS falsy). -/
def appDirectionsBlock (r : Recipe) : String :=
  if jsTruthy r.directions then
    "<div class=\"directions\"><h3>📝 Modo de preparo:</h3><p>"
      ++ r.directions.getD "" ++ "</p></div>"
  else ""

/-- The optional external-link block of a class-variant card; empty
string when `link` is absent or empty (JS falsy). -/
def appLinkBlock (r : Recipe) : String :=
  if jsTruthy r.link then
    "<a href=\"" ++ r.link.getD ""
      ++ "\" target=\"_blank\" class=\"recipe-link\">🔗 Ver receita completa</a>"
  else ""

/-- The unconditional part of a class-variant card: title, match
percentage and the two ingredient sections. -/
def appCardMain (r : Recipe) : String :=
  "<div class=\"recipe-card\"><h2 class=\"recipe-title\">" ++ r.title ++ "</h2>"
  ++ "<span class=\"match-percentage\">" ++ toString r.matchVal ++ "% compatível</span>"
  ++ "<div class=\"ingredients-list\">"
  ++ "<div class=\"ingredients-section\"><h3>✅ Você tem:</h3><ul>"
  ++ appUsedList r ++ "</ul></div>"
  ++ "<div class=\"ingredients-section\"><h3>🛒 Precisa comprar:</h3><ul>"
  ++ appMissingList r ++ "</ul></div></div>"

/-- One recipe card of the class-variant `displayResults` (lines 143-173). -/
def appRecipeCard (r : Recipe) : String :=
  appCardMain r ++ appDirectionsBlock r ++ appLinkBlock r ++ "</div>"

/-- Class-variant `displayResults` (lines 135-174): the guard
`if (!recipes || recipes.length === 0)` treats an absent argument like
an empty list. -/
def appDisplayResults (recipes : Option (List Recipe)) : String :=
  match recipes with
  | none => noResultsHtml
  | some rs => if rs.length = 0 then noResultsHtml else String.join (rs.map appRecipeCard)

/-! ### part_000: `RecipeRecommender`

`init` and `suggest` are modelled as functions of the client state and
of the responses the remote endpoints would return in that invocation;
the list of `ApiCall`s made is returned alongside the result and the new
state.  A thrown JS error is an `Except.error` carrying `error.message`
(the `catch` blocks of `init`/`suggest` only log and rethrow). -/

/-- The remote endpoints the client can invoke. -/
inductive ApiCall where
  | health
  | downloadModels
  | suggestCall
deriving Repr, DecidableEq

/-- The mutable state of a `RecipeRecommender` instance: the single
`initialized` flag. -/
structure RecState where
  initialized : Bool
deriving Repr, DecidableEq

/-- `RecipeRecommender.init` (part_000 lines 12-56): returns the result
(`ok true` or the thrown error message), the new state, and the calls
made.  `healthResp` and `dlResp` are the responses `/health` and
`/download-models` would return if fetched. -/
def RecipeRecommender.init (st : RecState)
    (healthResp : HttpResponse HealthBody) (dlResp : HttpResponse DownloadBody) :
    Except String Bool × RecState × List ApiCall :=
  if st.initialized then (Except.ok true, st, [])
  else if healthResp.body.status == "ok" && healthResp.body.models_loaded then
    (Except.ok true, ⟨true⟩, [ApiCall.health])
  else if !dlResp.ok then
    (Except.error ("Erro ao baixar modelos: " ++ dlResp.statusText), st,
      [ApiCall.health, ApiCall.downloadModels])
  else if dlResp.body.success then
    (Except.ok true, ⟨true⟩, [ApiCall.health, ApiCall.downloadModels])
  else
    (Except.error (jsOrDefault dlResp.body.error "Erro desconhecido ao baixar modelos"), st,
      [ApiCall.health, ApiCall.downloadModels])

/-- `RecipeRecommender.suggest` (part_000 lines 58-80): awaits `init`
when not yet initialized (`init` itself is a no-op when initialized, so
it is invoked unconditionally here), then posts to `/suggest`; on a
non-ok response it throws `HTTP <status>: <statusText>`, otherwise it
returns `data.recipes`. -/
def RecipeRecommender.suggest (st : RecState)
    (healthResp : HttpResponse HealthBody) (dlResp : HttpResponse DownloadBody)
    (resp : HttpResponse SuggestEnvelope) :
    Except String (Option (List Recipe)) × RecState × List ApiCall :=
  match RecipeRecommender.init st healthResp dlResp with
  | (Except.error e, st1, calls) => (Except.error e, st1, calls)
  | (Except.ok _, st1, calls) =>
    if !resp.ok then
      (Except.error ("HTTP " ++ toString resp.status ++ ": " ++ resp.statusText), st1,
        calls ++ [ApiCall.suggestCall])
    else
      (Except.ok resp.body.recipes, st1, calls ++ [ApiCall.suggestCall])

/-! ### part_000: DOM event handlers -/

/-- The page elements the part_000 handlers mutate: the suggest button
(`disabled`, `textContent`) and the results element (`innerHTML`). -/
structure UiState where
  buttonDisabled : Bool
  buttonText : String
  resultsHtml : String
deriving Repr, DecidableEq

/-- The readiness part of the `DOMContentLoaded` handler (part_000 lines
93-101), as a function of the outcome of `recommender.init()`: on
success the button is enabled, on failure it is set disabled and the
error message is shown. -/
def pageLoadHandler (initResult : Except String Bool) (st0 : UiState) : UiState :=
  match initResult with
  | Except.ok _ =>
    { st0 with
      buttonDisabled := false
      resultsHtml := "<p class=\"success\">Sistema pronto! Digite seus ingredientes acima.</p>" }
  | Except.error msg =>
    { st0 with
      buttonDisabled := true
      resultsHtml := "<p class=\"error\">Sistema indisponível: " ++ msg ++ "</p>" }

/-- Outcome of one run of the suggest-button click handler. -/
structure ClickOutcome where
  ui : UiState
  suggestInvoked : Bool
  alertMsg : Option String
deriving Repr, DecidableEq

/-- The suggest-button click handler (part_000 lines 104-124), as a
function of the input value and of the outcome `recommender.suggest`
would produce.  A blank (trimmed-empty) input alerts and returns before
`suggest`; otherwise the `finally` block re-enables the button and
restores its label whatever the outcome. -/
def suggestClickHandler (inputValue : String)
    (suggestOutcome : Except String (Option (List Recipe)))
    (st0 : UiState) : ClickOutcome :=
  let ingredients := jsTrim inputValue
  if ingredients = "" then
    ⟨st0, false, some "Por favor, digite alguns ingredientes!"⟩
  else
    let finalHtml :=
      match suggestOutcome with
      | Except.ok recipes => appDisplayResults recipes
      | Except.error msg => "<p class=\"error\">Erro: " ++ msg ++ "</p>"
    ⟨⟨false, "Sugerir Receitas", finalHtml⟩, true, none⟩

/-! ### script.js: `suggestRecipes` handler -/

/-- Outcome of one run of script.js `suggestRecipes`:  whether the
`/suggest` fetch was made, the alert shown (if any), and the final
results markup.  `resultsHtml = none` models the branch where
`displayResults` throws (its environment-specific `TypeError` message
ends up in the catch-block markup and is not determined by the source). -/
structure ScriptOutcome where
  fetchInvoked : Bool
  alertMsg : Option String
  resultsHtml : Option String
deriving Repr, DecidableEq

/-- script.js `suggestRecipes` (lines 4-35), as a function of the input
value and the response the `/suggest` fetch would return.  A blank
input alerts and returns before the fetch; a non-ok response throws a
fixed message which the catch block renders. -/
def suggestRecipes (inputValue : String) (resp : HttpResponse SuggestEnvelope) :
    ScriptOutcome :=
  if jsTrim inputValue = "" then
    ⟨false, some "Por favor, digite alguns ingredientes!", none⟩
  else if !resp.ok then
    ⟨true, none, some "<p class=\"error\">Erro ao buscar receitas: Erro ao buscar receitas</p>"⟩
  else
    match resp.body.recipes with
    | none => ⟨true, none, none⟩
    | some rs =>
      match scriptDisplayResults rs with
      | none => ⟨true, none, none⟩
      | some parts => ⟨true, none, some (String.join parts)⟩

/-! ### Concrete fixtures -/

/-- A recipe whose server-supplied match value 150 lies outside [0,100]. -/
def overRecipe : Recipe :=
  { title := "Bolo"
    matchVal := 150
    used := some ["ovo"]
    missing := some ["açúcar"]
    used_ingredients := some ["ovo"]
    missing_ingredients := some ["açúcar"]
    directions := none
    link := none }

/-- A recipe with every optional field absent. -/
def noListsRecipe : Recipe :=
  { title := "Sopa"
    matchVal := 80
    used := none
    missing := none
    used_ingredients := none
    missing_ingredients := none
    directions := none
    link := none }

/-- An already-initialized client state. -/
def readyState : RecState := ⟨true⟩

/-- A fresh client state. -/
def freshState : RecState := ⟨false⟩

/-- A `/health` response reporting models loaded. -/
def healthOkResp : HttpResponse HealthBody := ⟨true, 200, "OK", ⟨"ok", true⟩⟩

/-- A `/health` response reporting models not yet loaded. -/
def healthPendingResp : HttpResponse HealthBody := ⟨true, 200, "OK", ⟨"pending", false⟩⟩

/-- A successful `/download-models` response. -/
def dlOkResp : HttpResponse DownloadBody := ⟨true, 200, "OK", ⟨true, none⟩⟩

/-- A `/download-models` response with `success:false` and a server
reason. -/
def dlFailResp : HttpResponse DownloadBody := ⟨true, 200, "OK", ⟨false, some "Pasta não encontrada"⟩⟩

/-- An HTTP 500 `/suggest` response. -/
def resp500 : HttpResponse SuggestEnvelope := ⟨false, 500, "Internal Server Error", ⟨none⟩⟩

/-- A successful `/suggest` response whose envelope lacks the `recipes`
field. -/
def respOkNoRecipes : HttpResponse SuggestEnvelope := ⟨true, 200, "OK", ⟨none⟩⟩

/-- A plausible page state before a handler runs. -/
def uiStart : UiState := ⟨true, "Sugerir Receitas", ""⟩

/-! ### Claims -/

set_option maxRecDepth 100000

/-- C1: the claim says the rendered match percentage is clamped to
[0,100]; neither variant clamps.  At the concrete out-of-range recipe
`overRecipe` (match value 150) the class-variant card shows the raw
"150% compatível", the script-variant card shows the raw "150%", and
the clamped value "100%" appears nowhere in the class-variant card. -/
theorem match_rendered_unclamped :
    strContains (appRecipeCard overRecipe) "150% compatível" = true
    ∧ strContains ((scriptRecipeCard overRecipe).getD "") "150%" = true
    ∧ strContains (appRecipeCard overRecipe) "100%" = false := by
  refine ⟨?_, ?_, ?_⟩ <;> decide

/-- C2 counterexample: the claim says rendering succeeds when the
ingredient lists are absent; the script.js variant fails (its
`recipe.used.map` throws) on `noListsRecipe`. -/
theorem scriptDisplayResults_fails_on_missing_lists :
    scriptDisplayResults [noListsRecipe] = none := by
  decide

/-- C2 (amended): on a recipe with every optional field absent, the
class-based variant succeeds — the directions and link blocks are
omitted (empty) and the card reduces to its unconditional part — but
each absent ingredient list renders its fallback placeholder item
rather than omitting the section, and the script.js variant fails. -/
theorem render_missing_optional_fields (r : Recipe)
    (hd : r.directions = none) (hl : r.link = none)
    (hu : r.used_ingredients = none) (hm : r.missing_ingredients = none)
    (hus : r.used = none) :
    appDirectionsBlock r = ""
    ∧ appLinkBlock r = ""
    ∧ appUsedList r = "<li>Nenhum ingrediente principal</li>"
    ∧ appMissingList r = "<li>Nada!</li>"
    ∧ appRecipeCard r = appCardMain r ++ "</div>"
    ∧ scriptRecipeCard r = none := by
  have hdb : appDirectionsBlock r = "" := by
    simp [appDirectionsBlock, jsTruthy, hd]
  have hlb : appLinkBlock r = "" := by
    simp [appLinkBlock, jsTruthy, hl]
  refine ⟨hdb, hlb, ?_, ?_, ?_, ?_⟩
  · simp [appUsedList, jsOrDefault, hu]
  · simp [appMissingList, jsOrDefault, hm]
  · simp [appRecipeCard, hdb, hlb]
  · simp [scriptRecipeCard, hus]

/-- C2 witness: the amended statement at the concrete all-optional-absent
recipe. -/
theorem render_missing_optional_fields_witness :
    appDirectionsBlock noListsRecipe = ""
    ∧ appLinkBlock noListsRecipe = ""
    ∧ appUsedList noListsRecipe = "<li>Nenhum ingrediente principal</li>"
    ∧ appMissingList noListsRecipe = "<li>Nada!</li>"
    ∧ appRecipeCard noListsRecipe = appCardMain noListsRecipe ++ "</div>"
    ∧ scriptRecipeCard noListsRecipe = none :=
  render_missing_optional_fields noListsRecipe rfl rfl rfl rfl rfl

/-- C3: on an already-ready client, a non-ok `/suggest` response makes
`RecipeRecommender.suggest` fail with the message
`HTTP <status>: <statusText>` instead of returning a result list. -/
theorem suggest_http_error (st : RecState) (h : HttpResponse HealthBody)
    (dl : HttpResponse DownloadBody) (resp : HttpResponse SuggestEnvelope)
    (hinit : st.initialized = true) (hresp : resp.ok = false) :
    (RecipeRecommender.suggest st h dl resp).1
      = Except.error ("HTTP " ++ toString resp.status ++ ": " ++ resp.statusText) := by
  simp [RecipeRecommender.suggest, RecipeRecommender.init, hinit, hresp]

/-- C3 witness: at an HTTP 500 response, `suggest` fails with
`HTTP 500: Internal Server Error`. -/
theorem suggest_http_error_witness :
    (RecipeRecommender.suggest readyState healthOkResp dlOkResp resp500).1
      = Except.error ("HTTP " ++ toString (500 : Nat) ++ ": " ++ "Internal Server Error") :=
  suggest_http_error readyState healthOkResp dlOkResp resp500 rfl rfl

/-- C4 counterexample: the claim says the submit button ends enabled
after every failed attempt; after a failed readiness initialization the
`DOMContentLoaded` handler leaves the button disabled. -/
theorem pageLoad_failure_leaves_button_disabled :
    (pageLoadHandler (Except.error "timeout") uiStart).buttonDisabled = true := by
  decide

/-- C4 (amended): after a failed suggestion request the click handler's
`finally` block re-enables the button and restores its label, but after
a failed readiness initialization at page load the button is left
disabled (the system is treated as unavailable). -/
theorem button_state_after_failures (input msg : String) (st0 : UiState)
    (hne : jsTrim input ≠ "") :
    (suggestClickHandler input (Except.error msg) st0).ui.buttonDisabled = false
    ∧ (suggestClickHandler input (Except.error msg) st0).ui.buttonText = "Sugerir Receitas"
    ∧ ∀ (m : String) (st1 : UiState),
        (pageLoadHandler (Except.error m) st1).buttonDisabled = true := by
  refine ⟨?_, ?_, ?_⟩
  · simp [suggestClickHandler, hne]
  · simp [suggestClickHandler, hne]
  · intro m st1
    simp [pageLoadHandler]

/-- C4 witness: the amended statement at concrete inputs. -/
theorem button_state_after_failures_witness :
    (suggestClickHandler "ovo, farinha" (Except.error "HTTP 500: Internal Server Error")
        uiStart).ui.buttonDisabled = false
    ∧ (pageLoadHandler (Except.error "falhou") uiStart).buttonDisabled = true :=
  ⟨(button_state_after_failures "ovo, farinha" "HTTP 500: Internal Server Error" uiStart
      (by decide)).1,
   (button_state_after_failures "ovo, farinha" "HTTP 500: Internal Server Error" uiStart
      (by decide)).2.2 "falhou" uiStart⟩

/-- C5: on a fresh client, a `/health` response with status "ok" and
`models_loaded` true makes `init` succeed, set the flag, and perform
exactly one call, which is not the provisioning call. -/
theorem init_health_ok_single_call (st : RecState) (h : HttpResponse HealthBody)
    (dl : HttpResponse DownloadBody)
    (h0 : st.initialized = false) (h1 : h.body.status = "ok")
    (h2 : h.body.models_loaded = true) :
    RecipeRecommender.init st h dl = (Except.ok true, ⟨true⟩, [ApiCall.health])
    ∧ (RecipeRecommender.init st h dl).2.2.length = 1
    ∧ ApiCall.downloadModels ∉ (RecipeRecommender.init st h dl).2.2 := by
  have he : RecipeRecommender.init st h dl = (Except.ok true, ⟨true⟩, [ApiCall.health]) := by
    simp [RecipeRecommender.init, h0, h1, h2]
  refine ⟨he, ?_, ?_⟩
  · rw [he]
    decide
  · rw [he]
    decide

/-- C5 witness: the statement at the concrete ready `/health` response. -/
theorem init_health_ok_single_call_witness :
    RecipeRecommender.init freshState healthOkResp dlOkResp
        = (Except.ok true, ⟨true⟩, [ApiCall.health])
    ∧ (RecipeRecommender.init freshState healthOkResp dlOkResp).2.2.length = 1
    ∧ ApiCall.downloadModels ∉ (RecipeRecommender.init freshState healthOkResp dlOkResp).2.2 :=
  init_health_ok_single_call freshState healthOkResp dlOkResp rfl rfl rfl

/-- C6: on a fresh client, a not-ready `/health` response followed by a
successful `{success:true}` provisioning response makes `init` succeed,
set the flag, and invoke the provisioning endpoint exactly once. -/
theorem init_provisions_once_when_not_ready (st : RecState) (h : HttpResponse HealthBody)
    (dl : HttpResponse DownloadBody)
    (h0 : st.initialized = false)
    (h1 : (h.body.status == "ok" && h.body.models_loaded) = false)
    (h2 : dl.ok = true) (h3 : dl.body.success = true) :
    RecipeRecommender.init st h dl
        = (Except.ok true, ⟨true⟩, [ApiCall.health, ApiCall.downloadModels])
    ∧ (RecipeRecommender.init st h dl).2.2.count ApiCall.downloadModels = 1 := by
  have he : RecipeRecommender.init st h dl
      = (Except.ok true, ⟨true⟩, [ApiCall.health, ApiCall.downloadModels]) := by
    simp [RecipeRecommender.init, h0, h1, h2, h3]
  refine ⟨he, ?_⟩
  rw [he]
  decide

/-- C6 witness: the statement at the concrete pending `/health` and
successful `/download-models` responses. -/
theorem init_provisions_once_when_not_ready_witness :
    RecipeRecommender.init freshState healthPendingResp dlOkResp
        = (Except.ok true, ⟨true⟩, [ApiCall.health, ApiCall.downloadModels])
    ∧ (RecipeRecommender.init freshState healthPendingResp dlOkResp).2.2.count
        ApiCall.downloadModels = 1 :=
  init_provisions_once_when_not_ready freshState healthPendingResp dlOkResp rfl
    (by decide) rfl rfl

/-- C7: on a fresh client with a not-ready `/health` response, a failed
provisioning call makes `init` fail and leaves the state unchanged (so
the flag stays false, by `h0`): on a non-ok response the message carries
the status text, and on a `{success:false}` body it is the
server-supplied `error` field when present (JS `||`, via `jsOrDefault`)
and the generic fallback otherwise. -/
theorem init_provisioning_failure (st : RecState) (h : HttpResponse HealthBody)
    (dl : HttpResponse DownloadBody)
    (h0 : st.initialized = false)
    (h1 : (h.body.status == "ok" && h.body.models_loaded) = false) :
    (dl.ok = false →
      RecipeRecommender.init st h dl
        = (Except.error ("Erro ao baixar modelos: " ++ dl.statusText), st,
            [ApiCall.health, ApiCall.downloadModels]))
    ∧ (dl.ok = true → dl.body.success = false →
      RecipeRecommender.init st h dl
        = (Except.error (jsOrDefault dl.body.error "Erro desconhecido ao baixar modelos"), st,
            [ApiCall.health, ApiCall.downloadModels])) := by
  constructor
  · intro hok
    simp [RecipeRecommender.init, h0, h1, hok]
  · intro hok hs
    simp [RecipeRecommender.init, h0, h1, hok, hs]

/-- C7 witness: with a `{success:false, error:"Pasta não encontrada"}`
provisioning response, `init` fails with the server-supplied reason and
the state stays fresh. -/
theorem init_provisioning_failure_witness :
    RecipeRecommender.init freshState healthPendingResp dlFailResp
      = (Except.error (jsOrDefault dlFailResp.body.error "Erro desconhecido ao baixar modelos"),
          freshState, [ApiCall.health, ApiCall.downloadModels]) :=
  (init_provisioning_failure freshState healthPendingResp dlFailResp rfl (by decide)).2 rfl rfl

/-- C8: a query that trims to the empty string makes both the
class-variant click handler and script.js `suggestRecipes` alert
"Por favor, digite alguns ingredientes!" and return without invoking
`suggest` or the `/suggest` fetch, leaving the page state untouched. -/
theorem blank_query_no_request (input : String) (hb : jsTrim input = "")
    (outcome : Except String (Option (List Recipe))) (st0 : UiState)
    (resp : HttpResponse SuggestEnvelope) :
    suggestClickHandler input outcome st0
      = ⟨st0, false, some "Por favor, digite alguns ingredientes!"⟩
    ∧ suggestRecipes input resp
      = ⟨false, some "Por favor, digite alguns ingredientes!", none⟩ := by
  constructor
  · simp [suggestClickHandler, hb]
  · simp [suggestRecipes, hb]

/-- C8 witness: the statement at the whitespace-only input "   ". -/
theorem blank_query_no_request_witness :
    suggestClickHandler "   " (Except.ok none) uiStart
      = ⟨uiStart, false, some "Por favor, digite alguns ingredientes!"⟩
    ∧ suggestRecipes "   " resp500
      = ⟨false, some "Por favor, digite alguns ingredientes!", none⟩ :=
  blank_query_no_request "   " (by decide) (Except.ok none) uiStart resp500

/-- C9: once the `initialized` flag is true, `init` is an idempotent
no-op: it returns `true` at once, makes no network call, and leaves the
state unchanged, whatever the endpoints would answer. -/
theorem init_idempotent_when_ready (st : RecState) (h : HttpResponse HealthBody)
    (dl : HttpResponse DownloadBody) (h0 : st.initialized = true) :
    RecipeRecommender.init st h dl = (Except.ok true, st, []) := by
  simp [RecipeRecommender.init, h0]

/-- C9 witness: the statement at the ready state, with arbitrary
concrete responses on offer. -/
theorem init_idempotent_when_ready_witness :
    RecipeRecommender.init readyState healthPendingResp dlFailResp
      = (Except.ok true, readyState, []) :=
  init_idempotent_when_ready readyState healthPendingResp dlFailResp rfl

/-- C10: the class-variant `displayResults` treats an absent argument
like an empty list — both produce exactly the "no results" placeholder
and no recipe cards — and a successful `/suggest` envelope lacking the
`recipes` field flows out of `suggest` as `none`, which the click
handler renders as that placeholder. -/
theorem displayResults_null_like_empty :
    appDisplayResults none = noResultsHtml
    ∧ appDisplayResults (some []) = noResultsHtml
    ∧ (RecipeRecommender.suggest readyState healthOkResp dlOkResp respOkNoRecipes).1
        = Except.ok none
    ∧ (suggestClickHandler "ovo, farinha" (Except.ok none) uiStart).ui.resultsHtml
        = noResultsHtml := by
  refine ⟨rfl, rfl, rfl, ?_⟩
  decide

end SmartCook
